import Mathlib

/-!
Verification of the `moto` repository: a shallow embedding, in Lean 4, of the
HNAP authentication engine, the channel-table decoders and the log parser,
translated from `src/moto/moto_client.py`, `src/moto/downstream_channel.py`,
`src/moto/upstream_channel.py`, `src/moto/modem_log.py`, `src/moto.py` and
`src/logs.py`.  Python strings are modelled as `List Char`; Python exceptions
become `Except`/`Option`; machine integers and MD5 words are `Nat` reduced
modulo `2 ^ 32` where overflow matters.
-/

/-! ## Python string primitives -/

/-- The test `strStartsWith pat s` is true when `pat` is an initial segment of `s`
(Python `s.startswith(pat)`). -/
def strStartsWith : List Char → List Char → Bool
  | [], _ => true
  | _ :: _, [] => false
  | p :: ps, x :: xs => p = x && strStartsWith ps xs

/-- The test `containsSeq pat s` is true when `pat` occurs contiguously anywhere in `s`
(Python `pat in s`). -/
def containsSeq (pat : List Char) : List Char → Bool
  | [] => strStartsWith pat []
  | x :: xs => strStartsWith pat (x :: xs) || containsSeq pat xs

/-- Python `s.split(sep, 1)` for a one-character separator, exposed as the pair
of pieces; `none` models the `ValueError` raised by tuple unpacking
(`a, b = s.split(sep, 1)`) when the separator is absent. -/
def splitOnceChar (c : Char) : List Char → Option (List Char × List Char)
  | [] => none
  | x :: xs =>
    if x = c then some ([], xs)
    else (splitOnceChar c xs).map (fun p => (x :: p.1, p.2))

/-- Python `s.split(sep, maxsplit=1)` for a two-character separator `[a, b]`
(used for the literal backslash-n separator in `logs.py`). -/
def splitOnce2 (a b : Char) : List Char → Option (List Char × List Char)
  | x :: y :: rest =>
    if x = a ∧ y = b then some ([], rest)
    else (splitOnce2 a b (y :: rest)).map (fun p => (x :: p.1, p.2))
  | _ => none

/-- Python `s.split(sep)` (no maxsplit) for a one-character separator.
As in Python, `"".split(sep) = [""]` and `n` separators yield `n + 1` pieces. -/
def splitAllChar (c : Char) : List Char → List (List Char)
  | [] => [[]]
  | x :: xs =>
    if x = c then [] :: splitAllChar c xs
    else
      match splitAllChar c xs with
      | [] => [[x]]
      | p :: ps => (x :: p) :: ps

/-- Python `s.split(sep)` for a three-character separator `[a, b, c]`
(the record separators `"|+|"` and `"}-{"`), scanning left to right,
non-overlapping. -/
def splitSep3 (a b c : Char) : List Char → List (List Char)
  | x :: y :: z :: rest =>
    if x = a ∧ y = b ∧ z = c then [] :: splitSep3 a b c rest
    else
      match splitSep3 a b c (y :: z :: rest) with
      | [] => [[x]]
      | p :: ps => (x :: p) :: ps
  | s => [s]

/-- Python `s.rstrip("^")`: drop every trailing `'^'`. -/
def rstripCaret (s : List Char) : List Char :=
  (s.reverse.dropWhile (· = '^')).reverse

/-- Python `s.strip(chars)`: drop characters of `cs` from both ends. -/
def stripBoth (cs : List Char) (s : List Char) : List Char :=
  ((s.dropWhile (cs.contains ·)).reverse.dropWhile (cs.contains ·)).reverse

/-- Python `s.endswith(t)` for a two-character suffix `[a, b]`. -/
def endsWith2 (a b : Char) (s : List Char) : Bool :=
  match s.reverse with
  | y :: x :: _ => x = a && y = b
  | _ => false

/-- Decimal digit to character. -/
def digitToChar (n : Nat) : Char := Char.ofNat (48 + n)

/-- Auxiliary for `natToDec`, with explicit fuel (always sufficient when the
fuel is at least the number of digits). -/
def natToDecAux : Nat → Nat → List Char
  | 0, _ => []
  | f + 1, n =>
    if n < 10 then [digitToChar n]
    else natToDecAux f (n / 10) ++ [digitToChar (n % 10)]

/-- Python `str(n)` for a non-negative integer. -/
def natToDec (n : Nat) : List Char := natToDecAux n.succ n

/-! ## Python `int(str)` -/

/-- ASCII decimal digit test. -/
def isPyDigit (c : Char) : Bool := '0' ≤ c && c ≤ '9'

/-- Digit value of a character. -/
def digitVal (c : Char) : Nat := c.toNat - 48

/-- ASCII whitespace, as stripped by Python's `int`/`Decimal` constructors
(unicode whitespace is not modelled; all device data is ASCII). -/
def isPySpace (c : Char) : Bool :=
  c = ' ' || c = '\t' || c = '\n' || c = '\x0d' || c = '\x0b' || c = '\x0c'

/-- Strip ASCII whitespace from both ends. -/
def stripWs (s : List Char) : List Char :=
  ((s.dropWhile isPySpace).reverse.dropWhile isPySpace).reverse

/-- Parse a run of digits after the first digit, allowing a single underscore
between digits (PEP 515, as accepted by `int(str)`).  `acc` is the value so
far.  Fails on a misplaced underscore or a non-digit. -/
def parseDigitsGo (acc : Nat) : List Char → Option Nat
  | [] => some acc
  | '_' :: c :: rest =>
    if isPyDigit c then parseDigitsGo (acc * 10 + digitVal c) rest else none
  | c :: rest =>
    if isPyDigit c then parseDigitsGo (acc * 10 + digitVal c) rest else none

/-- Parse a non-empty underscore-grouped digit string (the part of
`int(str)` after sign handling). -/
def parseDigitsFirst : List Char → Option Nat
  | c :: rest => if isPyDigit c then parseDigitsGo (digitVal c) rest else none
  | [] => none

/-- Model of `int(str)` after whitespace stripping: optional sign, then digits. -/
def pyIntCore : List Char → Option Int
  | '+' :: rest => (parseDigitsFirst rest).map Int.ofNat
  | '-' :: rest => (parseDigitsFirst rest).map (fun n => -(n : Int))
  | s => (parseDigitsFirst s).map Int.ofNat

/-- Python `int(s)` for a string argument: `some` the value, or `none` for the
`ValueError` Python raises on a malformed literal. -/
def pyInt (s : List Char) : Option Int := pyIntCore (stripWs s)

/-! ## Python `decimal.Decimal(str)` -/

/-- A Python `Decimal` value: sign, coefficient and exponent (so significance
is preserved, e.g. `"1.20"` has coefficient 120 and exponent -2), or one of
the special values.  NaN payloads and the quiet/signalling distinction are
collapsed into a single `nan`. -/
inductive PyDecimal
  | num (neg : Bool) (coeff : Nat) (exp : Int)
  | inf (neg : Bool)
  | nan
deriving DecidableEq

/-- ASCII lowercase. -/
def lowerCh (c : Char) : Char :=
  if 'A' ≤ c ∧ c ≤ 'Z' then Char.ofNat (c.toNat + 32) else c

/-- Case-insensitive comparison with an (already lowercase) pattern. -/
def lowerEq (s pat : List Char) : Bool := s.map lowerCh = pat

/-- Greedy digit-run parser: consumes digits, allowing single underscores
between digits, and returns the value, the number of digits consumed and the
unconsumed remainder.  Stops (without failing) at the first character that
cannot extend the run. -/
def digitRun (acc cnt : Nat) : List Char → Nat × Nat × List Char
  | '_' :: c :: rest =>
    if isPyDigit c then digitRun (acc * 10 + digitVal c) (cnt + 1) rest
    else (acc, cnt, '_' :: c :: rest)
  | c :: rest =>
    if isPyDigit c then digitRun (acc * 10 + digitVal c) (cnt + 1) rest
    else (acc, cnt, c :: rest)
  | [] => (acc, cnt, [])

/-- A digit run must begin with a digit (no leading underscore). -/
def digitRunFirst : List Char → Nat × Nat × List Char
  | c :: rest =>
    if isPyDigit c then digitRun (digitVal c) 1 rest else (0, 0, c :: rest)
  | [] => (0, 0, [])

/-- Optional leading sign; returns `true` for `'-'`. -/
def parseSign : List Char → Bool × List Char
  | '+' :: rest => (false, rest)
  | '-' :: rest => (true, rest)
  | s => (false, s)

/-- Optional exponent part `E[sign]digits`, which must consume the whole
remainder; `some 0` when the remainder is empty. -/
def parseExpPart : List Char → Option Int
  | [] => some 0
  | c :: rest =>
    if lowerCh c = 'e' then
      match parseSign rest with
      | (esg, r2) =>
        match digitRunFirst r2 with
        | (ev, ec, r3) =>
          if ec = 0 ∨ r3 ≠ [] then none
          else some (if esg then -(ev : Int) else (ev : Int))
    else none

/-- Finite-number part of the `Decimal` grammar: `digits [. digits]` or
`. digits`, followed by an optional exponent. -/
def parseDecFinite (sg : Bool) (s : List Char) : Option PyDecimal :=
  match digitRunFirst s with
  | (iv, ic, s1) =>
    match s1 with
    | '.' :: s2 =>
      match digitRunFirst s2 with
      | (fv, fc, s3) =>
        if ic + fc = 0 then none
        else
          match parseExpPart s3 with
          | none => none
          | some e => some (.num sg (iv * 10 ^ fc + fv) (e - (fc : Int)))
    | _ =>
      if ic = 0 then none
      else
        match parseExpPart s1 with
        | none => none
        | some e => some (.num sg iv e)

/-- NaN part of the grammar: `nan` or `snan`, optionally followed by a digit
payload. -/
def isNanTail (s : List Char) : Bool :=
  match digitRunFirst s with
  | (_, _, []) => s = [] || !(s.headD 'x' = '_')
  | _ => false

/-- Model of `decimal.Decimal(s)` for a string argument: `some` the parsed value, or
`none` for the `InvalidOperation` Python raises on a malformed literal. -/
def pyDecimal (s0 : List Char) : Option PyDecimal :=
  match parseSign (stripWs s0) with
  | (sg, s) =>
    if lowerEq s "inf".data ∨ lowerEq s "infinity".data then some (.inf sg)
    else
      match s.map lowerCh with
      | 'n' :: 'a' :: 'n' :: tail =>
        if isNanTail tail then some .nan else parseDecFinite sg s
      | 's' :: 'n' :: 'a' :: 'n' :: tail =>
        if isNanTail tail then some .nan else parseDecFinite sg s
      | _ => parseDecFinite sg s

/-! ## MD5 and HMAC-MD5 (`hashlib.md5`, `hmac.new(..., digestmod=hashlib.md5)`)

Bytes are `Nat` below 256; 32-bit words are `Nat` reduced modulo `2 ^ 32`. -/

/-- UTF-8 encoding of one character (Python `str.encode("utf-8")`). -/
def utf8Encode (c : Char) : List Nat :=
  let n := c.toNat
  if n < 128 then [n]
  else if n < 2048 then [192 + n / 64, 128 + n % 64]
  else if n < 65536 then
    [224 + n / 4096, 128 + n / 64 % 64, 128 + n % 64]
  else
    [240 + n / 262144, 128 + n / 4096 % 64, 128 + n / 64 % 64, 128 + n % 64]

/-- UTF-8 bytes of a string. -/
def strToBytes (s : List Char) : List Nat := (s.map utf8Encode).flatten

/-- Truncate to 32 bits. -/
def w32 (n : Nat) : Nat := n % 4294967296

/-- Left rotation by `s` of a 32-bit word (operand assumed below `2 ^ 32`). -/
def rotl32 (x s : Nat) : Nat := (x * 2 ^ s + x / 2 ^ (32 - s)) % 4294967296

/-- Bitwise complement within 32 bits. -/
def not32 (x : Nat) : Nat := Nat.xor x 4294967295

/-- MD5 round functions F, G, H, I. -/
def md5F (b c d : Nat) : Nat := Nat.lor (Nat.land b c) (Nat.land (not32 b) d)

def md5G (b c d : Nat) : Nat := Nat.lor (Nat.land d b) (Nat.land (not32 d) c)

def md5H (b c d : Nat) : Nat := Nat.xor (Nat.xor b c) d

def md5I (b c d : Nat) : Nat := Nat.xor c (Nat.lor b (not32 d))

/-- The 64 MD5 sine-derived constants. -/
def md5K : List Nat :=
  [3614090360, 3905402710, 606105819, 3250441966,
   4118548399, 1200080426, 2821735955, 4249261313,
   1770035416, 2336552879, 4294925233, 2304563134,
   1804603682, 4254626195, 2792965006, 1236535329,
   4129170786, 3225465664, 643717713, 3921069994,
   3593408605, 38016083, 3634488961, 3889429448,
   568446438, 3275163606, 4107603335, 1163531501,
   2850285829, 4243563512, 1735328473, 2368359562,
   4294588738, 2272392833, 1839030562, 4259657740,
   2763975236, 1272893353, 4139469664, 3200236656,
   681279174, 3936430074, 3572445317, 76029189,
   3654602809, 3873151461, 530742520, 3299628645,
   4096336452, 1126891415, 2878612391, 4237533241,
   1700485571, 2399980690, 4293915773, 2240044497,
   1873313359, 4264355552, 2734768916, 1309151649,
   4149444226, 3174756917, 718787259, 3951481745]

/-- The 64 MD5 per-round rotation amounts. -/
def md5S : List Nat :=
  [7, 12, 17, 22, 7, 12, 17, 22, 7, 12, 17, 22, 7, 12, 17, 22,
   5, 9, 14, 20, 5, 9, 14, 20, 5, 9, 14, 20, 5, 9, 14, 20,
   4, 11, 16, 23, 4, 11, 16, 23, 4, 11, 16, 23, 4, 11, 16, 23,
   6, 10, 15, 21, 6, 10, 15, 21, 6, 10, 15, 21, 6, 10, 15, 21]

/-- Assemble little-endian 32-bit words from a list of bytes. -/
def toWords : List Nat → List Nat
  | b0 :: b1 :: b2 :: b3 :: rest =>
    (b0 + 256 * (b1 + 256 * (b2 + 256 * b3))) :: toWords rest
  | _ => []

/-- The four little-endian bytes of a 32-bit word. -/
def leBytes4 (n : Nat) : List Nat :=
  [n % 256, n / 256 % 256, n / 65536 % 256, n / 16777216 % 256]

/-- The eight little-endian bytes of a 64-bit length field. -/
def leBytes8 (n : Nat) : List Nat :=
  leBytes4 (n % 4294967296) ++ leBytes4 (n / 4294967296 % 4294967296)

/-- MD5 padding: append `0x80`, zero-pad to 56 mod 64, append the bit length
as a little-endian 64-bit integer. -/
def md5Pad (msg : List Nat) : List Nat :=
  msg ++ [128] ++ List.replicate ((120 - (msg.length + 1) % 64) % 64) 0
      ++ leBytes8 (8 * msg.length % 18446744073709551616)

/-- One MD5 round: `st = (a, b, c, d)`, `M` the 16 message words, `i` the
round index. -/
def md5Round (M : List Nat) (st : Nat × Nat × Nat × Nat) (i : Nat) :
    Nat × Nat × Nat × Nat :=
  match st with
  | (a, b, c, d) =>
    let fg : Nat × Nat :=
      if i < 16 then (md5F b c d, i)
      else if i < 32 then (md5G b c d, (5 * i + 1) % 16)
      else if i < 48 then (md5H b c d, (3 * i + 5) % 16)
      else (md5I b c d, (7 * i) % 16)
    let t := w32 (fg.1 + a + md5K.getD i 0 + M.getD fg.2 0)
    (d, w32 (b + rotl32 t (md5S.getD i 0)), b, c)

/-- Process one 64-byte chunk. -/
def md5Chunk (st : Nat × Nat × Nat × Nat) (chunk : List Nat) :
    Nat × Nat × Nat × Nat :=
  match st with
  | (a0, b0, c0, d0) =>
    match (List.range 64).foldl (md5Round (toWords chunk)) (a0, b0, c0, d0) with
    | (a, b, c, d) => (w32 (a0 + a), w32 (b0 + b), w32 (c0 + c), w32 (d0 + d))

/-- Split a (padded) byte list into 64-byte chunks; fuel-driven, the fuel
being an upper bound on the number of chunks. -/
def chunks64 : Nat → List Nat → List (List Nat)
  | _, [] => []
  | 0, rest => [rest]
  | f + 1, l => l.take 64 :: chunks64 f (l.drop 64)

/-- The 16-byte MD5 digest of a byte string. -/
def md5Bytes (msg : List Nat) : List Nat :=
  let padded := md5Pad msg
  match (chunks64 padded.length padded).foldl md5Chunk
      (1732584193, 4023233417, 2562383102, 271733878) with
  | (a, b, c, d) => leBytes4 a ++ leBytes4 b ++ leBytes4 c ++ leBytes4 d

/-- Lowercase hex character of a value below 16. -/
def hexDigitLower (n : Nat) : Char :=
  if n < 10 then Char.ofNat (48 + n) else Char.ofNat (87 + n)

/-- Uppercase hex character of a value below 16. -/
def hexDigitUpper (n : Nat) : Char :=
  if n < 10 then Char.ofNat (48 + n) else Char.ofNat (55 + n)

/-- Lowercase hex rendering of a byte string (Python `.hexdigest()`). -/
def hexLower (bs : List Nat) : List Char :=
  (bs.map (fun b => [hexDigitLower (b / 16), hexDigitLower (b % 16)])).flatten

/-- Uppercase hex rendering of a byte string (`.hexdigest().upper()`). -/
def hexUpper (bs : List Nat) : List Char :=
  (bs.map (fun b => [hexDigitUpper (b / 16), hexDigitUpper (b % 16)])).flatten

/-- HMAC-MD5 over byte strings (Python `hmac.new(key, msg, hashlib.md5)`).
Returns the 16-byte digest. -/
def hmacMd5 (key msg : List Nat) : List Nat :=
  let k0 := if 64 < key.length then md5Bytes key else key
  let k := k0 ++ List.replicate (64 - k0.length) 0
  let ipad := k.map (fun b => Nat.xor b 54)
  let opad := k.map (fun b => Nat.xor b 92)
  md5Bytes (opad ++ md5Bytes (ipad ++ msg))

/-! ## Channel records and their decoders

`DownstreamChannel.from_line` (`src/moto/downstream_channel.py`, lines 59-91)
and `parse_downstream_channel` (`src/moto.py`, lines 249-280) are the same
algorithm; `downstreamFromLine` below embeds both.  Likewise
`upstreamFromLine` embeds `UpstreamChannel.from_line` and
`parse_upstream_channel`. -/

/-- The decode-time failure of a channel-record decoder (the spec's
`MalformedRecord` taxonomy): `notEnoughFields` is the `ValueError` raised by
tuple unpacking when `split("^", 1)` finds no separator, `badInt` the
`ValueError` from `int(...)`, `badDecimal` the `InvalidOperation` from
`Decimal(...)`. -/
inductive MalformedRecord
  | notEnoughFields
  | badInt (raw : List Char)
  | badDecimal (raw : List Char)
deriving DecidableEq

/-- A parsed downstream channel (dataclass `DownstreamChannel`). -/
structure DownstreamChannel where
  channel : Int
  lock_status : List Char
  modulation : List Char
  channel_id : Int
  frequency : PyDecimal
  power : PyDecimal
  snr : PyDecimal
  corrected : Int
  uncorrected : Int
deriving DecidableEq

/-- A parsed upstream channel (dataclass `UpstreamChannel`). -/
structure UpstreamChannel where
  channel : Int
  lock_status : List Char
  channel_type : List Char
  channel_id : Int
  symbol_rate : PyDecimal
  frequency : PyDecimal
  power : PyDecimal
deriving DecidableEq

/-- Model of `DownstreamChannel.from_line` (`src/moto/downstream_channel.py`, lines
59-91): nine successive `line.split("^", 1)` steps with `int`/`Decimal`
conversions interleaved in source order; the last field is `rstrip`ped of
carets before `int`.  A missing separator is the unpacking `ValueError`
(`notEnoughFields`); a failed conversion is `badInt`/`badDecimal`. -/
def downstreamFromLine (line : List Char) :
    Except MalformedRecord DownstreamChannel :=
  match splitOnceChar '^' line with
  | none => .error .notEnoughFields
  | some (channelS, l1) =>
  match pyInt channelS with
  | none => .error (.badInt channelS)
  | some channel =>
  match splitOnceChar '^' l1 with
  | none => .error .notEnoughFields
  | some (lock_status, l2) =>
  match splitOnceChar '^' l2 with
  | none => .error .notEnoughFields
  | some (modulation, l3) =>
  match splitOnceChar '^' l3 with
  | none => .error .notEnoughFields
  | some (channelIdS, l4) =>
  match pyInt channelIdS with
  | none => .error (.badInt channelIdS)
  | some channel_id =>
  match splitOnceChar '^' l4 with
  | none => .error .notEnoughFields
  | some (frequencyS, l5) =>
  match pyDecimal frequencyS with
  | none => .error (.badDecimal frequencyS)
  | some frequency =>
  match splitOnceChar '^' l5 with
  | none => .error .notEnoughFields
  | some (powerS, l6) =>
  match pyDecimal powerS with
  | none => .error (.badDecimal powerS)
  | some power =>
  match splitOnceChar '^' l6 with
  | none => .error .notEnoughFields
  | some (snrS, l7) =>
  match pyDecimal snrS with
  | none => .error (.badDecimal snrS)
  | some snr =>
  match splitOnceChar '^' l7 with
  | none => .error .notEnoughFields
  | some (correctedS, l8) =>
  match pyInt correctedS with
  | none => .error (.badInt correctedS)
  | some corrected =>
  match splitOnceChar '^' l8 with
  | none => .error .notEnoughFields
  | some (uncorrectedS, _l9) =>
  match pyInt (rstripCaret uncorrectedS) with
  | none => .error (.badInt (rstripCaret uncorrectedS))
  | some uncorrected =>
    .ok ⟨channel, lock_status, modulation, channel_id, frequency, power, snr,
         corrected, uncorrected⟩

/-- Model of `UpstreamChannel.from_line` (`src/moto/upstream_channel.py`, lines
55-81): seven successive `split("^", 1)` steps; the last field is
`rstrip`ped of carets before `Decimal`. -/
def upstreamFromLine (line : List Char) :
    Except MalformedRecord UpstreamChannel :=
  match splitOnceChar '^' line with
  | none => .error .notEnoughFields
  | some (channelS, l1) =>
  match pyInt channelS with
  | none => .error (.badInt channelS)
  | some channel =>
  match splitOnceChar '^' l1 with
  | none => .error .notEnoughFields
  | some (lock_status, l2) =>
  match splitOnceChar '^' l2 with
  | none => .error .notEnoughFields
  | some (channel_type, l3) =>
  match splitOnceChar '^' l3 with
  | none => .error .notEnoughFields
  | some (channelIdS, l4) =>
  match pyInt channelIdS with
  | none => .error (.badInt channelIdS)
  | some channel_id =>
  match splitOnceChar '^' l4 with
  | none => .error .notEnoughFields
  | some (symbolRateS, l5) =>
  match pyDecimal symbolRateS with
  | none => .error (.badDecimal symbolRateS)
  | some symbol_rate =>
  match splitOnceChar '^' l5 with
  | none => .error .notEnoughFields
  | some (frequencyS, l6) =>
  match pyDecimal frequencyS with
  | none => .error (.badDecimal frequencyS)
  | some frequency =>
  match splitOnceChar '^' l6 with
  | none => .error .notEnoughFields
  | some (powerS, _l7) =>
  match pyDecimal (rstripCaret powerS) with
  | none => .error (.badDecimal (rstripCaret powerS))
  | some power =>
    .ok ⟨channel, lock_status, channel_type, channel_id, symbol_rate,
         frequency, power⟩

/-- Model of `DownstreamChannel.from_response`: split the response on `"|+|"` and
decode each piece.  The list holds the outcome the generator produces for
each `yield` in order. -/
def downstreamFromResponse (response : List Char) :
    List (Except MalformedRecord DownstreamChannel) :=
  (splitSep3 '|' '+' '|' response).map downstreamFromLine

/-- Model of `UpstreamChannel.from_response`. -/
def upstreamFromResponse (response : List Char) :
    List (Except MalformedRecord UpstreamChannel) :=
  (splitSep3 '|' '+' '|' response).map upstreamFromLine

/-- Consuming a generator to a list (Python `list(gen)`): the first record
whose decoding raises aborts the whole traversal with that error. -/
def collectYields {E A : Type} : List (Except E A) → Except E (List A)
  | [] => .ok []
  | .error e :: _ => .error e
  | .ok a :: rest => (collectYields rest).map (a :: ·)

/-- A Python generator object: a single-use iterator holding the sequence of
outcomes not yet yielded.  Python generators are not restartable — iterating
consumes them. -/
structure PyGen (α : Type) where
  remaining : List α
deriving DecidableEq

/-- Iterating a generator to exhaustion: returns everything it still holds
and leaves it exhausted. -/
def iterateGen {α : Type} (g : PyGen α) : List α × PyGen α :=
  (g.remaining, ⟨[]⟩)

/-- The generator object returned by `DownstreamChannel.from_response`. -/
def downstreamGenerator (response : List Char) :
    PyGen (Except MalformedRecord DownstreamChannel) :=
  ⟨downstreamFromResponse response⟩

/-- The generator object returned by `UpstreamChannel.from_response`. -/
def upstreamGenerator (response : List Char) :
    PyGen (Except MalformedRecord UpstreamChannel) :=
  ⟨upstreamFromResponse response⟩

/-! ## The log record parser of `src/logs.py` (lines 21-45)

`logs.py` is the only implementation that handles the "Time Not Established"
sentinel and can produce an absent timestamp; its per-record logic (the body
of the inner loop, excluding the batch-level timestamp de-duplication and the
`--grep` output filter, which do not alter any record's parsed value) is
embedded here.  The timestamp format is `datetime.strptime(ts_str,
"%H:%M:%S^%a %b %d %Y")`. -/

/-- A naive `datetime.datetime` as produced by `strptime` with this format. -/
structure PyDateTime where
  year : Nat
  month : Nat
  day : Nat
  hour : Nat
  minute : Nat
  second : Nat
deriving DecidableEq

/-- One-or-two-digit numeric field of `strptime` (`%H`/`%M`/`%S`/`%d`): the
two-digit alternative is taken when its value lies within `[lo, hi]`,
otherwise a single digit is taken when at least `lo` (mirroring the regex
alternations `_strptime` builds, longest first). -/
def parse2or1 (lo hi : Nat) : List Char → Option (Nat × List Char)
  | c1 :: c2 :: rest =>
    if isPyDigit c1 ∧ isPyDigit c2 ∧ lo ≤ 10 * digitVal c1 + digitVal c2 ∧
        10 * digitVal c1 + digitVal c2 ≤ hi then
      some (10 * digitVal c1 + digitVal c2, rest)
    else if isPyDigit c1 ∧ lo ≤ digitVal c1 then some (digitVal c1, c2 :: rest)
    else none
  | [c1] => if isPyDigit c1 ∧ lo ≤ digitVal c1 then some (digitVal c1, []) else none
  | [] => none

/-- Exactly four digits (`%Y`). -/
def parseYear4 : List Char → Option (Nat × List Char)
  | c1 :: c2 :: c3 :: c4 :: rest =>
    if isPyDigit c1 ∧ isPyDigit c2 ∧ isPyDigit c3 ∧ isPyDigit c4 then
      some (1000 * digitVal c1 + 100 * digitVal c2 + 10 * digitVal c3 +
            digitVal c4, rest)
    else none
  | _ => none

/-- A literal character of the format. -/
def expectChar (c : Char) : List Char → Option (List Char)
  | x :: rest => if x = c then some rest else none
  | [] => none

/-- A space in the format matches one or more whitespace characters. -/
def skipWs1 : List Char → Option (List Char)
  | c :: rest => if isPySpace c then some (rest.dropWhile isPySpace) else none
  | [] => none

/-- Lowercase abbreviated weekday names (`%a`). -/
def weekdayNames : List (List Char) :=
  ["mon", "tue", "wed", "thu", "fri", "sat", "sun"].map String.data

/-- Lowercase abbreviated month names (`%b`). -/
def monthNames : List (List Char) :=
  ["jan", "feb", "mar", "apr", "may", "jun",
   "jul", "aug", "sep", "oct", "nov", "dec"].map String.data

/-- Case-insensitive three-letter name field; returns the 1-based index. -/
def parseName3 (names : List (List Char)) : List Char → Option (Nat × List Char)
  | c1 :: c2 :: c3 :: rest =>
    match names.findIdx? (· = [lowerCh c1, lowerCh c2, lowerCh c3]) with
    | none => none
    | some i => some (i + 1, rest)
  | _ => none

/-- Gregorian leap year. -/
def isLeap (y : Nat) : Bool :=
  y % 4 = 0 && (y % 100 ≠ 0 || y % 400 = 0)

/-- Days in a month (the validation `datetime(...)` performs). -/
def daysInMonth (y m : Nat) : Nat :=
  if m = 2 then (if isLeap y then 29 else 28)
  else if m = 4 ∨ m = 6 ∨ m = 9 ∨ m = 11 then 30
  else 31

/-- Model of `datetime.strptime(s, "%H:%M:%S^%a %b %d %Y")`: the whole string must be
consumed, the weekday name is matched but (year, month and day being given)
discarded, and the day must exist in the month.  Seconds `60`/`61` match
`_strptime`'s regex but make the `datetime` constructor raise, so the call
fails either way; the bound 59 used here yields the same final outcome. -/
def parseLogTimestamp (s : List Char) : Option PyDateTime := do
  let (h, s1) ← parse2or1 0 23 s
  let s2 ← expectChar ':' s1
  let (mi, s3) ← parse2or1 0 59 s2
  let s4 ← expectChar ':' s3
  let (sec, s5) ← parse2or1 0 59 s4
  let s6 ← expectChar '^' s5
  let (_wd, s7) ← parseName3 weekdayNames s6
  let s8 ← skipWs1 s7
  let (mon, s9) ← parseName3 monthNames s8
  let s10 ← skipWs1 s9
  let (d, s11) ← parse2or1 1 31 s10
  let s12 ← skipWs1 s11
  let (y, s13) ← parseYear4 s12
  if s13 = [] ∧ d ≤ daysInMonth y mon then
    pure ⟨y, mon, d, h, mi, sec⟩
  else none

/-- The sentinel text `logs.py` looks for with a substring test. -/
def timeNotEstablished : List Char := "Time Not Established".data

/-- Failure of the `logs.py` record loop: `missingMarker` is the caught
`ValueError` that makes the script `sys.exit(1)`, `badTimestamp` the
uncaught `ValueError` from `strptime`, `missingLevel` the uncaught
`ValueError` from unpacking `log.split("^", maxsplit=1)`. -/
inductive LogParseError
  | missingMarker
  | badTimestamp (raw : List Char)
  | missingLevel
deriving DecidableEq

/-- One parsed log record of `logs.py`: `ts = None` is modelled as `none`. -/
structure LogRecord where
  ts : Option PyDateTime
  priority : List Char
  message : List Char
deriving DecidableEq

/-- Lines 38-43 of `logs.py`, applied after the timestamp marker is handled:
strip carets and spaces from both ends, split off the priority, drop a
trailing quote-newline pair. -/
def logsParseTail (ts : Option PyDateTime) (log : List Char) :
    Except LogParseError LogRecord :=
  match splitOnceChar '^' (stripBoth ['^', ' '] log) with
  | none => .error .missingLevel
  | some (priority, l2) =>
    .ok ⟨ts, priority,
         if endsWith2 '"' '\n' l2 then l2.dropLast.dropLast else l2⟩

/-- Lines 22-43 of `logs.py` for a single record: when the sentinel occurs
anywhere in the record (Python `in`, a substring test) the timestamp is
absent and the first 21 characters — `len("Time Not Established^")` — are
dropped; otherwise the record is split at the first literal backslash-n and
the marker parsed with `strptime`. -/
def logsParseRecord (log : List Char) : Except LogParseError LogRecord :=
  if containsSeq timeNotEstablished log then
    logsParseTail none (log.drop 21)
  else
    match splitOnce2 '\\' 'n' log with
    | none => .error .missingMarker
    | some (tsStr, rest) =>
      match parseLogTimestamp tsStr with
      | none => .error (.badTimestamp tsStr)
      | some t => logsParseTail (some t) rest

/-! ## HNAP auth engine and action client -/

/-- ASCII uppercase of one character. -/
def upperCh (c : Char) : Char :=
  if 'a' ≤ c ∧ c ≤ 'z' then Char.ofNat (c.toNat - 32) else c

/-- Python `s.upper()` (ASCII; hex digests are ASCII). -/
def strUpper (s : List Char) : List Char := s.map upperCh

/-- Model of `_SOAP_NAMESPACE` / `SOAP_NAMESPACE`. -/
def SOAP_NAMESPACE : List Char := "http://purenetworks.com/HNAP1/".data

/-- Model of `MotoClient._md5sum` (`src/moto/moto_client.py`, lines 157-165): HMAC-MD5
of the UTF-8 encodings, hex digest uppercased. -/
def md5sumUpper (key data : List Char) : List Char :=
  hexUpper (hmacMd5 (strToBytes key) (strToBytes data))

/-- Model of `md5sum` of `src/moto.py` (lines 118-124): same HMAC-MD5, lowercase hex
digest (callers apply `.upper()` themselves). -/
def motoPyMd5sum (key data : List Char) : List Char :=
  hexLower (hmacMd5 (strToBytes key) (strToBytes data))

/-- The timestamp modulus `2000000000000` of `_timestamp` / `millis()`. -/
def TIMESTAMP_MODULUS : Nat := 2000000000000

/-- Model of `MotoClient._timestamp` / `moto.py millis()` rendered as a string:
`str(int(round(time() * 1000)) % 2000000000000)`.  The current
epoch-millisecond clock reading is passed explicitly. -/
def timestampStr (nowMs : Nat) : List Char := natToDec (nowMs % TIMESTAMP_MODULUS)

/-- Model of `MotoClient._hnap_auth` (`src/moto/moto_client.py`, lines 167-174): one
timestamp sample feeds both the HMAC message and the suffix. -/
def clientHnapAuth (privateKey action : List Char) (nowMs : Nat) : List Char :=
  let timestamp := timestampStr nowMs
  let data := timestamp ++ SOAP_NAMESPACE ++ action
  md5sumUpper privateKey data ++ ' ' :: timestamp

/-- The quote-wrapped action URI `f'"{SOAP_NAMESPACE}{action}"'` built by
`do_action` in `src/moto.py` (line 138). -/
def motoPyActionUri (action : List Char) : List Char :=
  '"' :: (SOAP_NAMESPACE ++ action ++ ['"'])

/-- Model of `hnap_auth` of `src/moto.py` (lines 127-131):
`md5sum(key, data).upper() + " " + str(millis())` — the trailing timestamp
comes from a fresh `millis()` call, sampled at `t2`. -/
def motoPyHnapAuth (key data : List Char) (t2 : Nat) : List Char :=
  strUpper (motoPyMd5sum key data) ++ ' ' :: timestampStr t2

/-- The `HNAP_AUTH` header `do_action` of `src/moto.py` sends (line 148):
`hnap_auth(private_key, str(millis()) + action_uri)`, with `millis()` sampled
at `t1` for the message and at `t2` inside `hnap_auth` for the suffix. -/
def motoPyAuthHeader (privateKey action : List Char) (t1 t2 : Nat) : List Char :=
  motoPyHnapAuth privateKey (timestampStr t1 ++ motoPyActionUri action) t2

/-- Follows the spec's words (C1): the header is
`uppercase(hex(HMAC-MD5(key, t + action_namespace_uri + action_name)))`
followed by a single space and `t`, where `t` is the epoch-millisecond clock
modulo `2 * 10 ^ 12` rendered in decimal and the same `t` appears inside the
HMAC message and after the space. -/
def specAuthHeader (key action : List Char) (nowMs : Nat) : List Char :=
  let t := natToDec (nowMs % 2000000000000)
  hexUpper (hmacMd5 (strToBytes key) (strToBytes (t ++ SOAP_NAMESPACE ++ action)))
    ++ ' ' :: t

/-- The header formula `src/moto.py` actually implements (the amended C1 for
the script path): the HMAC message wraps the action URI in double quotes and
uses the first clock sample `t1`, while the suffix uses an independent second
sample `t2`. -/
def specAuthHeaderQuoted (key action : List Char) (t1 t2 : Nat) : List Char :=
  let ts1 := natToDec (t1 % 2000000000000)
  let ts2 := natToDec (t2 % 2000000000000)
  hexUpper (hmacMd5 (strToBytes key)
      (strToBytes (ts1 ++ '"' :: (SOAP_NAMESPACE ++ action ++ ['"']))))
    ++ ' ' :: ts2

/-- The anonymous-state placeholder key, default of the `PrivateKey` cookie
lookup. -/
def WITHOUT_LOGIN_KEY : List Char := "withoutloginkey".data

/-- The session cookie jar as the client uses it: the `PrivateKey` and `uid`
cookies, each possibly unset. -/
structure CookieJar where
  privateKey : Option (List Char)
  uid : Option (List Char)
deriving DecidableEq

/-- Model of `MotoClient._private_key` getter:
`cookies.get("PrivateKey", path="/", default="withoutloginkey")`. -/
def privateKeyOf (jar : CookieJar) : List Char :=
  jar.privateKey.getD WITHOUT_LOGIN_KEY

/-- Decoded JSON values, as far as this client consumes them: strings and
objects.  (Other JSON shapes never reach the modelled code paths.) -/
inductive Json
  | str (s : List Char)
  | obj (fields : List (List Char × Json))

/-- Dictionary lookup `body[key]`.  On a non-object this collapses Python's
`TypeError` with the missing-key case: both are failures. -/
def jlookup (k : List Char) : Json → Option Json
  | .str _ => none
  | .obj fields => (fields.find? (fun p => p.1 = k)).map (·.2)

/-- Model of `_KNOWN_ACTIONS` of `src/moto/moto_client.py` (lines 19-30). -/
def KNOWN_ACTIONS : List (List Char) :=
  ["Login", "GetHomeConnection", "GetHomeAddress", "GetMotoStatusSoftware",
   "GetMotoStatusLog", "GetMotoLagStatus", "GetMotoStatusConnectionInfo",
   "GetMotoStatusDownstreamChannelInfo", "GetMotoStatusStartupSequence",
   "GetMotoStatusUpstreamChannelInfo"].map String.data

/-- An HNAP request as posted: the action name and the parameter map (all
parameter values in this code base are strings). -/
structure HnapRequest where
  action : List Char
  params : List (List Char × List Char)
deriving DecidableEq

/-- Failures of `_do_action`: `unknownAction` is the
`ValueError(f"Unknown action: {action}")`, `invalidJson` the
`MotoError("Unable to decode JSON response.")`, `responseKeyMissing` the
`MotoError("No response from modem.")`. -/
inductive ActionError
  | unknownAction (a : List Char)
  | invalidJson
  | responseKeyMissing
deriving DecidableEq

/-- Model of `MotoClient._do_action` (`src/moto/moto_client.py`, lines 176-201) over a
network oracle `net` mapping the posted action and parameters to the decoded
response body (`none` = body is not valid JSON).  Returns the outcome, the
resulting session state and the list of requests actually posted. -/
def doAction (net : List Char → List (List Char × List Char) → Option Json)
    (st : CookieJar) (action : List Char)
    (params : List (List Char × List Char)) :
    Except ActionError Json × CookieJar × List HnapRequest :=
  if action ∈ KNOWN_ACTIONS then
    match net action params with
    | none => (.error .invalidJson, st, [⟨action, params⟩])
    | some body =>
      match jlookup (action ++ "Response".data) body with
      | none => (.error .responseKeyMissing, st, [⟨action, params⟩])
      | some v => (.ok v, st, [⟨action, params⟩])
  else (.error (.unknownAction action), st, [])

/-- The parameter map `{action: "" for action in actions}`: one
empty-string-valued entry per action name, insertion-ordered, first
occurrence kept. -/
def dictKeysEmptyStr (actions : List (List Char)) :
    List (List Char × List Char) :=
  actions.foldl
    (fun acc a => if acc.any (fun p => p.1 = a) then acc else acc ++ [(a, [])])
    []

/-- The synthetic batch action name. -/
def GetMultipleHNAPs : List Char := "GetMultipleHNAPs".data

/-- Model of `MotoClient._do_actions` (`src/moto/moto_client.py`, lines 203-204). -/
def doActions (net : List Char → List (List Char × List Char) → Option Json)
    (st : CookieJar) (actions : List (List Char)) :
    Except ActionError Json × CookieJar × List HnapRequest :=
  doAction net st GetMultipleHNAPs (dictKeysEmptyStr actions)

/-- Model of `do_action` of `src/moto.py` (lines 134-158): identical unwrapping but no
allow-list check — every call posts its request. -/
def motoPyDoAction (net : List Char → List (List Char × List Char) → Option Json)
    (st : CookieJar) (action : List Char)
    (params : List (List Char × List Char)) :
    Except ActionError Json × CookieJar × List HnapRequest :=
  match net action params with
  | none => (.error .invalidJson, st, [⟨action, params⟩])
  | some body =>
    match jlookup (action ++ "Response".data) body with
    | none => (.error .responseKeyMissing, st, [⟨action, params⟩])
    | some v => (.ok v, st, [⟨action, params⟩])

/-- Model of `do_actions` of `src/moto.py` (lines 161-165). -/
def motoPyDoActions (net : List Char → List (List Char × List Char) → Option Json)
    (st : CookieJar) (actions : List (List Char)) :
    Except ActionError Json × CookieJar × List HnapRequest :=
  motoPyDoAction net st GetMultipleHNAPs (dictKeysEmptyStr actions)

/-! ## The login handshake (`MotoClient.login`, `src/moto/moto_client.py`,
lines 68-100) -/

/-- Failures of the field extractions inside `login`: `keyError k` is the
(uncaught) Python `KeyError` from `response[k]`, `typeError` the `TypeError`
a non-string field would raise when concatenated or hashed. -/
inductive LoginError
  | keyError (k : List Char)
  | typeError
deriving DecidableEq

/-- Model of `response[k]` expected to be a string. -/
def jgetStr (k : List Char) (r : Json) : Except LoginError (List Char) :=
  match jlookup k r with
  | none => .error (.keyError k)
  | some (.str s) => .ok s
  | some _ => .error .typeError

/-- The parameter map of the first `Login` request (source order of the dict
literal, lines 74-80). -/
def loginRequest1Params (username : List Char) :
    List (List Char × List Char) :=
  [("Action".data, "request".data), ("Captcha".data, []),
   ("PrivateLogin".data, "LoginPassword".data), ("Username".data, username),
   ("LoginPassword".data, [])]

/-- The parameter map of the second `Login` request (lines 93-99). -/
def loginRequest2Params (username loginPassword : List Char) :
    List (List Char × List Char) :=
  [("Action".data, "login".data), ("Captcha".data, []),
   ("PrivateLogin".data, "LoginPassword".data), ("Username".data, username),
   ("LoginPassword".data, loginPassword)]

/-- Model of `MotoClient.login`, parametrised by the unwrapped values the two
`_do_action("Login", ...)` calls return (`resp1`, `resp2`).  Produces the
value `login` returns, the session cookie jar after the call and the two
`Login` requests posted.  The second response is returned as-is: the source
never inspects it, and the cookie jar set after the first response (lines
86-87) is never rolled back. -/
def clientLogin (username password : List Char) (st : CookieJar)
    (resp1 resp2 : Json) :
    Except LoginError (Json × CookieJar × List HnapRequest) :=
  match jgetStr "PublicKey".data resp1 with
  | .error e => .error e
  | .ok publicKey =>
    match jgetStr "Challenge".data resp1 with
    | .error e => .error e
    | .ok challenge =>
      let privateKey := md5sumUpper (publicKey ++ password) challenge
      match jgetStr "Cookie".data resp1 with
      | .error e => .error e
      | .ok cookie =>
        let _ := st
        let st1 : CookieJar := { privateKey := some privateKey,
                                 uid := some cookie }
        let loginPassword := md5sumUpper privateKey challenge
        .ok (resp2, st1,
             [⟨"Login".data, loginRequest1Params username⟩,
              ⟨"Login".data, loginRequest2Params username loginPassword⟩])

/-- The login-phase computation of `src/moto.py` (lines 211-223), exposed as
the triple (private key, uid cookie, login password) it derives from the
first response's fields. -/
def motoPyLoginPhase (password publicKey challenge cookie : List Char) :
    List Char × List Char × List Char :=
  let privateKey := strUpper (motoPyMd5sum (publicKey ++ password) challenge)
  (privateKey, cookie, strUpper (motoPyMd5sum privateKey challenge))

/-- Follows the spec's words (C3): the derived session private key. -/
def specPrivateKey (publicKey password challenge : List Char) : List Char :=
  hexUpper (hmacMd5 (strToBytes (publicKey ++ password)) (strToBytes challenge))

/-- Follows the spec's words (C3): the login password sent in the second
`Login` request. -/
def specLoginPassword (privateKey challenge : List Char) : List Char :=
  hexUpper (hmacMd5 (strToBytes privateKey) (strToBytes challenge))

/-! ## Concrete inputs used by the claim checks -/

/-- The downstream response string of the spec's end-to-end decoding check
(C2), exactly as written there. -/
def specC2Str : List Char :=
  "5^Locked^QAM256^2^591000000^-1.2^38.1^10^0|+|6^Locked^QAM256^3^597000000^-0.5^38.5^5^0".data

/-- The same two records, each carrying the trailing field separator the
decoder consumes after the last field (as the device emits them — compare
the `strip("^")` in `src/power.py`). -/
def amendedC2Str : List Char :=
  "5^Locked^QAM256^2^591000000^-1.2^38.1^10^0^|+|6^Locked^QAM256^3^597000000^-0.5^38.5^5^0^".data

/-- A first-phase `Login` response with string `PublicKey`, `Challenge` and
`Cookie` fields. -/
def loginResp1 : Json :=
  .obj [("PublicKey".data, .str "PUB".data),
        ("Challenge".data, .str "CHAL".data),
        ("Cookie".data, .str "COOK".data)]

/-- A second-phase `Login` response carrying an explicit failure indicator. -/
def loginFailResp2 : Json :=
  .obj [("LoginResult".data, .str "FAILED".data)]

/-- A log record whose marker is the "time not established" sentinel. -/
def c5SentinelRecord : List Char := "Time Not Established^warn^no clock".data

/-- A log record with a well-formed timestamp marker whose free-text message
happens to contain the sentinel phrase. -/
def c5MixedRecord : List Char :=
  "12:30:45^Mon Jan 01 2024\\n^err^Time Not Established".data

/-- The timestamp marker of `c5MixedRecord`. -/
def c5MixedMarker : List Char := "12:30:45^Mon Jan 01 2024".data

/-- An ordinary log record with a well-formed timestamp marker. -/
def c5GoodRecord : List Char :=
  "12:30:45^Mon Jan 01 2024\\n^err^boot complete".data

/-- A network oracle that never returns a decodable body. -/
def netNone : List Char → List (List Char × List Char) → Option Json :=
  fun _ _ => none

/-- A response body for the batch action. -/
def batchBody : Json :=
  .obj [("GetMultipleHNAPsResponse".data, .str "ok".data)]

/-- A network oracle that always answers with `batchBody`. -/
def netBatch : List Char → List (List Char × List Char) → Option Json :=
  fun _ _ => some batchBody

deriving instance DecidableEq for Except

set_option maxRecDepth 40000

/-! ## Helper lemmas -/

/-- A successful `split(sep, 1)` peels the first piece of the full split. -/
theorem splitAllChar_cons (c : Char) :
    ∀ (line p r : List Char), splitOnceChar c line = some (p, r) →
      splitAllChar c line = p :: splitAllChar c r := by
  intro line
  induction line with
  | nil => intro p r h; simp [splitOnceChar] at h
  | cons x xs ih =>
    intro p r h
    by_cases hx : x = c
    · subst hx
      rw [splitOnceChar, if_pos rfl, Option.some.injEq, Prod.mk.injEq] at h
      obtain ⟨hp, hr⟩ := h
      subst hp; subst hr
      simp [splitAllChar]
    · rcases hsp : splitOnceChar c xs with _ | ⟨p', r'⟩
      · rw [splitOnceChar, if_neg hx, hsp] at h; simp at h
      · rw [splitOnceChar, if_neg hx, hsp, Option.map, Option.some.injEq,
            Prod.mk.injEq] at h
        obtain ⟨hp, hr⟩ := h
        dsimp only at hp hr
        subst hr
        simp only [splitAllChar, if_neg hx, ih p' r' hsp]
        rw [← hp]

/-- A `split` never returns an empty list of pieces. -/
theorem splitAllChar_ne_nil (c : Char) (line : List Char) :
    splitAllChar c line ≠ [] := by
  induction line with
  | nil => simp [splitAllChar]
  | cons x xs ih =>
    by_cases hx : x = c
    · simp [splitAllChar, hx]
    · simp only [splitAllChar, hx, if_false]
      rcases splitAllChar c xs with _ | ⟨p, ps⟩ <;> simp

/-- No piece of a `split` contains the separator. -/
theorem not_mem_splitAllChar (c : Char) :
    ∀ (s p : List Char), p ∈ splitAllChar c s → c ∉ p := by
  intro s
  induction s with
  | nil =>
    intro p hp
    simp [splitAllChar] at hp
    simp [hp]
  | cons x xs ih =>
    intro p hp
    by_cases hx : x = c
    · subst hx
      simp [splitAllChar] at hp
      rcases hp with hp | hp
      · simp [hp]
      · exact ih p hp
    · simp only [splitAllChar, hx, if_false] at hp
      rcases hq : splitAllChar c xs with _ | ⟨q, qs⟩
      · exact absurd hq (splitAllChar_ne_nil c xs)
      · rw [hq] at hp
        simp at hp
        rcases hp with hp | hp
        · subst hp
          intro hmem
          rw [List.mem_cons] at hmem
          rcases hmem with hc | hmem
          · exact hx hc.symm
          · exact ih q (by rw [hq]; exact List.mem_cons_self q qs) hmem
        · exact ih p (by rw [hq]; exact List.mem_cons_of_mem q hp)

/-- The operation `rstrip("^")` is the identity on caret-free strings. -/
theorem rstripCaret_eq_self (s : List Char) (h : '^' ∉ s) :
    rstripCaret s = s := by
  unfold rstripCaret
  have hd : s.reverse.dropWhile (· = '^') = s.reverse := by
    rcases hr : s.reverse with _ | ⟨y, ys⟩
    · rfl
    · have hy : y ∈ s := by
        rw [← List.mem_reverse, hr]; exact List.mem_cons_self y ys
      have : ¬ (y = '^') := fun hc => h (hc ▸ hy)
      simp [List.dropWhile, this]
  rw [hd, List.reverse_reverse]

/-- Uppercasing a lowercase hex digit gives the uppercase hex digit. -/
theorem upperCh_hexDigitLower : ∀ n : Nat, n < 16 →
    upperCh (hexDigitLower n) = hexDigitUpper n := by decide

/-- Every byte of a little-endian word rendering is below 256. -/
theorem leBytes4_lt (n : Nat) : ∀ b ∈ leBytes4 n, b < 256 := by
  intro b hb
  simp [leBytes4] at hb
  rcases hb with h | h | h | h <;> omega

/-- Every byte of an MD5 digest is below 256. -/
theorem md5Bytes_lt (m : List Nat) : ∀ b ∈ md5Bytes m, b < 256 := by
  intro b hb
  simp only [md5Bytes] at hb
  rcases hfold : (chunks64 (md5Pad m).length (md5Pad m)).foldl md5Chunk
      (1732584193, 4023233417, 2562383102, 271733878) with ⟨a, b', c, d⟩
  rw [hfold] at hb
  simp only [List.mem_append] at hb
  rcases hb with (( h | h ) | h) | h <;> exact leBytes4_lt _ _ h

/-- Every byte of an HMAC-MD5 digest is below 256. -/
theorem hmacMd5_lt (k m : List Nat) : ∀ b ∈ hmacMd5 k m, b < 256 := by
  intro b hb
  exact md5Bytes_lt _ b hb

/-- Applying `.upper()` to a lowercase hex rendering of bytes is the uppercase hex
rendering. -/
theorem strUpper_hexLower (bs : List Nat) (h : ∀ b ∈ bs, b < 256) :
    strUpper (hexLower bs) = hexUpper bs := by
  induction bs with
  | nil => rfl
  | cons b rest ih =>
    have hb : b < 256 := h b (List.mem_cons_self b rest)
    have hdiv : b / 16 < 16 := by omega
    have hmod : b % 16 < 16 := by omega
    have hrest : ∀ x ∈ rest, x < 256 :=
      fun x hx => h x (List.mem_cons_of_mem b hx)
    simp only [hexLower, hexUpper, strUpper, List.map_cons, List.flatten_cons,
               List.map_append] at *
    rw [upperCh_hexDigitLower _ hdiv, upperCh_hexDigitLower _ hmod]
    simp [ih hrest]

/-- The value `md5sum(key, data).upper()` of `src/moto.py` equals `MotoClient._md5sum`. -/
theorem strUpper_motoPyMd5sum (k d : List Char) :
    strUpper (motoPyMd5sum k d) = md5sumUpper k d :=
  strUpper_hexLower _ (hmacMd5_lt _ _)

/-- The tail step of the `logs.py` record loop preserves the timestamp it is
given. -/
theorem logsParseTail_ts (ts : Option PyDateTime) (log : List Char)
    (r : LogRecord) (h : logsParseTail ts log = .ok r) : r.ts = ts := by
  unfold logsParseTail at h
  rcases hsp : splitOnceChar '^' (stripBoth ['^', ' '] log) with _ | ⟨prio, l2⟩
  · rw [hsp] at h; simp at h
  · rw [hsp] at h
    simp only [Except.ok.injEq] at h
    rw [← h]

/-- Structure of a successful downstream decode: the line must split into at
least ten `^`-separated fields, and every numeric slot of the 9-field schema
must parse as its declared type. -/
theorem downstream_ok_struct (line : List Char) (ch : DownstreamChannel)
    (h : downstreamFromLine line = .ok ch) :
    ∃ f0 f1 f2 f3 f4 f5 f6 f7 f8 rest,
      splitAllChar '^' line =
        f0 :: f1 :: f2 :: f3 :: f4 :: f5 :: f6 :: f7 :: f8 :: rest ∧
      rest ≠ [] ∧ (pyInt f0).isSome = true ∧ (pyInt f3).isSome = true ∧
      (pyDecimal f4).isSome = true ∧ (pyDecimal f5).isSome = true ∧
      (pyDecimal f6).isSome = true ∧ (pyInt f7).isSome = true ∧
      (pyInt (rstripCaret f8)).isSome = true := by
  unfold downstreamFromLine at h
  rcases h1 : splitOnceChar '^' line with _ | ⟨f0, r1⟩
  · simp [h1] at h
  rcases hi0 : pyInt f0 with _ | v0
  · simp [h1, hi0] at h
  rcases h2 : splitOnceChar '^' r1 with _ | ⟨f1, r2⟩
  · simp [h1, hi0, h2] at h
  rcases h3 : splitOnceChar '^' r2 with _ | ⟨f2, r3⟩
  · simp [h1, hi0, h2, h3] at h
  rcases h4 : splitOnceChar '^' r3 with _ | ⟨f3, r4⟩
  · simp [h1, hi0, h2, h3, h4] at h
  rcases hi3 : pyInt f3 with _ | v3
  · simp [h1, hi0, h2, h3, h4, hi3] at h
  rcases h5 : splitOnceChar '^' r4 with _ | ⟨f4, r5⟩
  · simp [h1, hi0, h2, h3, h4, hi3, h5] at h
  rcases hd4 : pyDecimal f4 with _ | w4
  · simp [h1, hi0, h2, h3, h4, hi3, h5, hd4] at h
  rcases h6 : splitOnceChar '^' r5 with _ | ⟨f5, r6⟩
  · simp [h1, hi0, h2, h3, h4, hi3, h5, hd4, h6] at h
  rcases hd5 : pyDecimal f5 with _ | w5
  · simp [h1, hi0, h2, h3, h4, hi3, h5, hd4, h6, hd5] at h
  rcases h7 : splitOnceChar '^' r6 with _ | ⟨f6, r7⟩
  · simp [h1, hi0, h2, h3, h4, hi3, h5, hd4, h6, hd5, h7] at h
  rcases hd6 : pyDecimal f6 with _ | w6
  · simp [h1, hi0, h2, h3, h4, hi3, h5, hd4, h6, hd5, h7, hd6] at h
  rcases h8 : splitOnceChar '^' r7 with _ | ⟨f7, r8⟩
  · simp [h1, hi0, h2, h3, h4, hi3, h5, hd4, h6, hd5, h7, hd6, h8] at h
  rcases hi7 : pyInt f7 with _ | v7
  · simp [h1, hi0, h2, h3, h4, hi3, h5, hd4, h6, hd5, h7, hd6, h8, hi7] at h
  rcases h9 : splitOnceChar '^' r8 with _ | ⟨f8, r9⟩
  · simp [h1, hi0, h2, h3, h4, hi3, h5, hd4, h6, hd5, h7, hd6, h8, hi7,
          h9] at h
  rcases hi8 : pyInt (rstripCaret f8) with _ | v8
  · simp [h1, hi0, h2, h3, h4, hi3, h5, hd4, h6, hd5, h7, hd6, h8, hi7, h9,
          hi8] at h
  have e1 := splitAllChar_cons '^' line f0 r1 h1
  have e2 := splitAllChar_cons '^' r1 f1 r2 h2
  have e3 := splitAllChar_cons '^' r2 f2 r3 h3
  have e4 := splitAllChar_cons '^' r3 f3 r4 h4
  have e5 := splitAllChar_cons '^' r4 f4 r5 h5
  have e6 := splitAllChar_cons '^' r5 f5 r6 h6
  have e7 := splitAllChar_cons '^' r6 f6 r7 h7
  have e8 := splitAllChar_cons '^' r7 f7 r8 h8
  have e9 := splitAllChar_cons '^' r8 f8 r9 h9
  refine ⟨f0, f1, f2, f3, f4, f5, f6, f7, f8, splitAllChar '^' r9,
          ?_, splitAllChar_ne_nil '^' r9, ?_, ?_, ?_, ?_, ?_, ?_, ?_⟩
  · rw [e1, e2, e3, e4, e5, e6, e7, e8, e9]
  · simp [hi0]
  · simp [hi3]
  · simp [hd4]
  · simp [hd5]
  · simp [hd6]
  · simp [hi7]
  · simp [hi8]

/-! ## Claim C2 -/

/-- C2 counterexample: decoding the exact response string of the claim does
not succeed — the decoder consumes a tenth `^`-separated field (the
separator after the last field), so consuming the generator raises the
unpacking `ValueError` on the very first record instead of yielding two
records. -/
theorem c2_counterexample_missing_trailing_sep :
    collectYields (downstreamFromResponse specC2Str) =
      Except.error MalformedRecord.notEnoughFields := by decide

/-- C2 (amended): with each record carrying its trailing `^` field separator
— as the device emits them — decoding succeeds and yields exactly two
`DownstreamChannel` records, with channel ordinals 5 and 6, in that order. -/
theorem c2_amended_two_records :
    (collectYields (downstreamFromResponse amendedC2Str)).map
        (fun l => l.map DownstreamChannel.channel) = Except.ok [5, 6] ∧
    (downstreamFromResponse amendedC2Str).length = 2 := by decide

/-! ## Claim C6 -/

/-- C6 counterexample: decoding the empty input string does not yield an
empty sequence — the generator yields one outcome, and consuming it raises a
`MalformedRecord` error, for both channel directions. -/
theorem c6_counterexample_empty_not_ok :
    downstreamFromResponse [] ≠ [] ∧
    (collectYields (downstreamFromResponse [])).isOk = false ∧
    upstreamFromResponse [] ≠ [] ∧
    (collectYields (upstreamFromResponse [])).isOk = false := by decide

/-- C6 (amended): `"".split("|+|") == [""]`, so decoding an empty input
string yields a one-element sequence whose sole record fails with the
`MalformedRecord` unpacking error (its first `split("^", 1)` finds no
separator); consuming the sequence therefore raises rather than returning an
empty table. -/
theorem c6_amended_singleton_error :
    downstreamFromResponse [] = [Except.error MalformedRecord.notEnoughFields] ∧
    upstreamFromResponse [] = [Except.error MalformedRecord.notEnoughFields] := by
  decide

/-! ## Claim C7 -/

/-- C7 counterexample: the parsed sequence is a Python generator and is not
restartable — on a concrete two-record table the first iteration yields two
outcomes and re-iterating the same generator yields none. -/
theorem c7_counterexample_generator_exhausted :
    (iterateGen (downstreamGenerator amendedC2Str)).1 ≠
      (iterateGen (iterateGen (downstreamGenerator amendedC2Str)).2).1 := by
  decide

/-- C7 (amended): for every input string the generator yields, in one pass,
exactly the decode outcomes of the `|+|`-split of the original string (the
parse itself is pure, so a freshly created generator always replays the same
records), but the generator is one-shot: re-iterating it after exhaustion
yields nothing — restarting requires calling `from_response` again. -/
theorem c7_amended_one_shot : ∀ response : List Char,
    (iterateGen (downstreamGenerator response)).1 =
        downstreamFromResponse response ∧
    (iterateGen (iterateGen (downstreamGenerator response)).2).1 = [] ∧
    (iterateGen (upstreamGenerator response)).1 =
        upstreamFromResponse response ∧
    (iterateGen (iterateGen (upstreamGenerator response)).2).1 = [] :=
  fun _ => ⟨rfl, rfl, rfl, rfl⟩

/-! ## Claim C4 -/

/-- C4: a downstream record line with fewer `^`-separated fields than the
9-field schema requires fails decoding with a `MalformedRecord` error (in
particular the spec's `"1^locked"` example), and so does a line whose
integer slots (fields 0, 3, 7, 8) or decimal slots (fields 4, 5, 6) hold
strings that do not parse as their declared type; decoding is a total
function into `Except MalformedRecord`, so no unrelated error and no
partially-populated record can be produced. -/
theorem c4_malformed_record_rejected :
    (∀ line : List Char, (splitAllChar '^' line).length < 9 →
        ∃ e, downstreamFromLine line = .error e)
    ∧ downstreamFromLine "1^locked".data =
        Except.error MalformedRecord.notEnoughFields
    ∧ (∀ (line f : List Char) (i : Nat), i ∈ ([0, 3, 7, 8] : List Nat) →
        (splitAllChar '^' line)[i]? = some f → pyInt f = none →
        ∃ e, downstreamFromLine line = .error e)
    ∧ (∀ (line f : List Char) (i : Nat), i ∈ ([4, 5, 6] : List Nat) →
        (splitAllChar '^' line)[i]? = some f → pyDecimal f = none →
        ∃ e, downstreamFromLine line = .error e) := by
  refine ⟨?_, by decide, ?_, ?_⟩
  · intro line hlen
    rcases hd : downstreamFromLine line with e | ch
    · exact ⟨e, rfl⟩
    · obtain ⟨f0, f1, f2, f3, f4, f5, f6, f7, f8, rest, heq, -, -, -, -, -,
              -, -, -⟩ := downstream_ok_struct line ch hd
      rw [heq] at hlen
      simp at hlen
      omega
  · intro line f i hi hget hnone
    rcases hd : downstreamFromLine line with e | ch
    · exact ⟨e, rfl⟩
    · obtain ⟨f0, f1, f2, f3, f4, f5, f6, f7, f8, rest, heq, -, hs0, hs3, -,
              -, -, hs7, hs8⟩ := downstream_ok_struct line ch hd
      rw [heq] at hget
      simp at hi
      rcases hi with hi | hi | hi | hi <;> subst hi <;> simp at hget <;>
        subst hget
      · rw [hnone] at hs0; simp at hs0
      · rw [hnone] at hs3; simp at hs3
      · rw [hnone] at hs7; simp at hs7
      · have hmem : f8 ∈ splitAllChar '^' line := by rw [heq]; simp
        rw [rstripCaret_eq_self f8 (not_mem_splitAllChar '^' line f8 hmem),
            hnone] at hs8
        simp at hs8
  · intro line f i hi hget hnone
    rcases hd : downstreamFromLine line with e | ch
    · exact ⟨e, rfl⟩
    · obtain ⟨f0, f1, f2, f3, f4, f5, f6, f7, f8, rest, heq, -, -, -, hs4,
              hs5, hs6, -, -⟩ := downstream_ok_struct line ch hd
      rw [heq] at hget
      simp at hi
      rcases hi with hi | hi | hi <;> subst hi <;> simp at hget <;>
        subst hget
      · rw [hnone] at hs4; simp at hs4
      · rw [hnone] at hs5; simp at hs5
      · rw [hnone] at hs6; simp at hs6

/-- C4 witness: the theorem applied to the spec's own too-short example, to
a ten-field line whose `channel_id` slot is non-numeric, and to one whose
`frequency` slot is non-numeric. -/
theorem c4_witness :
    ((splitAllChar '^' "1^locked".data).length < 9 ∧
      ∃ e, downstreamFromLine "1^locked".data = .error e)
    ∧ (∃ e, downstreamFromLine
        "5^Locked^QAM256^x^591000000^-1.2^38.1^10^0^".data = .error e)
    ∧ (∃ e, downstreamFromLine
        "5^Locked^QAM256^2^x^-1.2^38.1^10^0^".data = .error e) :=
  ⟨⟨by decide, c4_malformed_record_rejected.1 "1^locked".data (by decide)⟩,
   c4_malformed_record_rejected.2.2.1
     "5^Locked^QAM256^x^591000000^-1.2^38.1^10^0^".data "x".data 3
     (by decide) (by decide) (by decide),
   c4_malformed_record_rejected.2.2.2
     "5^Locked^QAM256^2^x^-1.2^38.1^10^0^".data "x".data 4
     (by decide) (by decide) (by decide)⟩

/-! ## Claim C1 -/

/-- C1 counterexample: at one concrete request (key `"ABC"`, action
`"Login"`, a fixed clock) the header the `src/moto.py` script sends differs
from the claimed formula, because its HMAC message wraps the action URI in
double quotes. -/
theorem c1_counterexample_script_header :
    motoPyAuthHeader "ABC".data "Login".data 1700000000000 1700000000000 ≠
      specAuthHeader "ABC".data "Login".data 1700000000000 := by decide

/-- C1 (amended): requests issued through `MotoClient` carry exactly the
claimed header — one clock sample `t`, reduced modulo `2 * 10 ^ 12` and
rendered in decimal, feeding both the HMAC-MD5 message
`t + namespace + action` and the suffix after the single space — including
the golden value for key `"ABC"`, action `"Login"`; the `src/moto.py` script
instead hashes `t1 + '"' + namespace + action + '"'` and appends an
independently sampled `t2`. -/
theorem c1_amended_auth_header :
    (∀ (key action : List Char) (nowMs : Nat),
        clientHnapAuth key action nowMs = specAuthHeader key action nowMs)
    ∧ (∀ (key action : List Char) (t1 t2 : Nat),
        motoPyAuthHeader key action t1 t2 =
          specAuthHeaderQuoted key action t1 t2)
    ∧ clientHnapAuth "ABC".data "Login".data 1700000000000 =
        "F0AEF10F55C45A756E893CA05B244FED 1700000000000".data := by
  refine ⟨fun key action nowMs => rfl, ?_, by decide⟩
  intro key action t1 t2
  unfold motoPyAuthHeader motoPyHnapAuth specAuthHeaderQuoted motoPyActionUri
  rw [strUpper_motoPyMd5sum]
  rfl

/-! ## Claim C3 -/

/-- C3: whenever the first `Login` response carries string fields
`PublicKey`, `Challenge` and `Cookie`, the stored private key is
`uppercase(hex(HMAC-MD5(PublicKey + password, Challenge)))`, the `Cookie`
value is stored as the session uid, and the `LoginPassword` sent in the
second `Login` request is `uppercase(hex(HMAC-MD5(private_key,
Challenge)))`; the `src/moto.py` `login` derives the identical triple, and
the formulas match a golden reference value. -/
theorem c3_login_key_derivation :
    (∀ (username password : List Char) (st : CookieJar) (resp1 resp2 : Json)
        (publicKey challenge cookie : List Char),
        jgetStr "PublicKey".data resp1 = .ok publicKey →
        jgetStr "Challenge".data resp1 = .ok challenge →
        jgetStr "Cookie".data resp1 = .ok cookie →
        clientLogin username password st resp1 resp2 =
          .ok (resp2,
               ⟨some (specPrivateKey publicKey password challenge),
                some cookie⟩,
               [⟨"Login".data, loginRequest1Params username⟩,
                ⟨"Login".data, loginRequest2Params username
                  (specLoginPassword
                    (specPrivateKey publicKey password challenge)
                    challenge)⟩]))
    ∧ (∀ password publicKey challenge cookie : List Char,
        motoPyLoginPhase password publicKey challenge cookie =
          (specPrivateKey publicKey password challenge, cookie,
           specLoginPassword (specPrivateKey publicKey password challenge)
             challenge))
    ∧ specPrivateKey "PUB".data "motorola".data "CHAL".data =
        "AB59431A242EA8617CFD2C38C599F611".data
    ∧ specLoginPassword "AB59431A242EA8617CFD2C38C599F611".data "CHAL".data =
        "548D3E7717CC3F6D3965884FC1423643".data := by
  refine ⟨?_, ?_, by decide, by decide⟩
  · intro username password st resp1 resp2 publicKey challenge cookie h1 h2 h3
    unfold clientLogin
    rw [h1, h2, h3]
    rfl
  · intro password publicKey challenge cookie
    simp only [motoPyLoginPhase, strUpper_motoPyMd5sum]
    rfl

/-- C3 witness: the theorem applied to a concrete first response. -/
theorem c3_witness :
    clientLogin "admin".data "motorola".data ⟨none, none⟩ loginResp1
        (Json.str "OK".data) =
      .ok (Json.str "OK".data,
           ⟨some (specPrivateKey "PUB".data "motorola".data "CHAL".data),
            some "COOK".data⟩,
           [⟨"Login".data, loginRequest1Params "admin".data⟩,
            ⟨"Login".data, loginRequest2Params "admin".data
              (specLoginPassword
                (specPrivateKey "PUB".data "motorola".data "CHAL".data)
                "CHAL".data)⟩]) :=
  c3_login_key_derivation.1 "admin".data "motorola".data ⟨none, none⟩
    loginResp1 (Json.str "OK".data) "PUB".data "CHAL".data "COOK".data
    rfl rfl rfl

/-! ## Claim C5 -/

/-- C5 counterexample: a record whose timestamp marker is a well-formed,
non-sentinel timestamp, but whose free-text message contains the sentinel
phrase, is parsed with an absent timestamp — the script tests the sentinel
by substring, not by marker equality — even though its marker parses. -/
theorem c5_counterexample_sentinel_in_message :
    (logsParseRecord c5MixedRecord).map LogRecord.ts = Except.ok none
    ∧ splitOnce2 '\\' 'n' c5MixedRecord =
        some (c5MixedMarker, "^err^Time Not Established".data)
    ∧ c5MixedMarker ≠ timeNotEstablished
    ∧ parseLogTimestamp c5MixedMarker = some ⟨2024, 1, 1, 12, 30, 45⟩ := by
  decide

/-- C5 (amended): a record is treated as "time not established" exactly when
the sentinel occurs anywhere in it (a substring test, not marker equality),
in which case its parsed timestamp is absent; every record not containing
the sentinel that parses successfully gets the timestamp `strptime` assigns
to its marker (the literal interpretation of hour, minute, second, weekday,
month, day, year). -/
theorem c5_amended_sentinel_substring : ∀ log : List Char,
    (containsSeq timeNotEstablished log = true →
      ∀ r, logsParseRecord log = .ok r → r.ts = none)
    ∧ (containsSeq timeNotEstablished log = false →
      ∀ r, logsParseRecord log = .ok r →
        ∃ m rest, splitOnce2 '\\' 'n' log = some (m, rest) ∧
          ∃ t, parseLogTimestamp m = some t ∧ r.ts = some t) := by
  intro log
  constructor
  · intro hc r hr
    unfold logsParseRecord at hr
    rw [hc] at hr
    simp at hr
    exact logsParseTail_ts _ _ _ hr
  · intro hc r hr
    rcases hs : splitOnce2 '\\' 'n' log with _ | ⟨m, rest⟩
    · unfold logsParseRecord at hr
      rw [hc] at hr
      simp [hs] at hr
    · rcases hts : parseLogTimestamp m with _ | t
      · unfold logsParseRecord at hr
        rw [hc] at hr
        simp [hs, hts] at hr
      · unfold logsParseRecord at hr
        rw [hc] at hr
        simp [hs, hts] at hr
        exact ⟨m, rest, rfl, t, hts, logsParseTail_ts _ _ _ hr⟩

/-- C5 witness: the theorem applied to a sentinel record and to an ordinary
record. -/
theorem c5_witness :
    (⟨none, "warn".data, "no clock".data⟩ : LogRecord).ts = none
    ∧ ∃ m rest, splitOnce2 '\\' 'n' c5GoodRecord = some (m, rest) ∧
        ∃ t, parseLogTimestamp m = some t ∧
          (⟨some ⟨2024, 1, 1, 12, 30, 45⟩, "err".data,
            "boot complete".data⟩ : LogRecord).ts = some t :=
  ⟨(c5_amended_sentinel_substring c5SentinelRecord).1 (by decide) _
     (by decide),
   (c5_amended_sentinel_substring c5GoodRecord).2 (by decide) _ (by decide)⟩

/-! ## Claim C8 -/

/-- C8 counterexample: with a concrete second `Login` response carrying an
explicit failure indicator, `login` does not fail — it returns that response
unchanged, and the session state keeps the uid cookie and the private key
derived after the first response. -/
theorem c8_counterexample_failure_ignored :
    clientLogin "admin".data "motorola".data ⟨none, none⟩ loginResp1
        loginFailResp2 =
      .ok (loginFailResp2,
           ⟨some "AB59431A242EA8617CFD2C38C599F611".data,
            some "COOK".data⟩,
           [⟨"Login".data, loginRequest1Params "admin".data⟩,
            ⟨"Login".data, loginRequest2Params "admin".data
              "548D3E7717CC3F6D3965884FC1423643".data⟩]) := by
  rfl

/-- C8 (amended): `login` never inspects the second `Login` response: for
every second response — failure indicators included — it returns that
response as-is inside `.ok`, and the session state after the call holds the
private key and uid derived from the first response (the half-set state is
retained, never rolled back, and no authentication-failure error exists in
this code). -/
theorem c8_amended_no_failure_check :
    ∀ (username password : List Char) (st : CookieJar) (resp1 resp2 : Json)
      (publicKey challenge cookie : List Char),
      jgetStr "PublicKey".data resp1 = .ok publicKey →
      jgetStr "Challenge".data resp1 = .ok challenge →
      jgetStr "Cookie".data resp1 = .ok cookie →
      ∃ reqs, clientLogin username password st resp1 resp2 =
        .ok (resp2,
             ⟨some (md5sumUpper (publicKey ++ password) challenge),
              some cookie⟩, reqs) := by
  intro username password st resp1 resp2 publicKey challenge cookie h1 h2 h3
  refine ⟨[⟨"Login".data, loginRequest1Params username⟩,
           ⟨"Login".data, loginRequest2Params username
             (md5sumUpper (md5sumUpper (publicKey ++ password) challenge)
               challenge)⟩], ?_⟩
  unfold clientLogin
  rw [h1, h2, h3]

/-- C8 witness: the theorem applied to the concrete failure response. -/
theorem c8_witness :
    ∃ reqs, clientLogin "admin".data "motorola".data ⟨none, none⟩ loginResp1
        loginFailResp2 =
      .ok (loginFailResp2,
           ⟨some (md5sumUpper ("PUB".data ++ "motorola".data) "CHAL".data),
            some "COOK".data⟩, reqs) :=
  c8_amended_no_failure_check "admin".data "motorola".data ⟨none, none⟩
    loginResp1 loginFailResp2 "PUB".data "CHAL".data "COOK".data rfl rfl rfl

/-! ## Claim C9 -/

/-- Auxiliary: folding the dict-comprehension step over distinct keys from
any accumulator that contains none of them appends one empty-valued entry
per key. -/
theorem dictKeysEmptyStr_aux :
    ∀ (as : List (List Char)) (acc : List (List Char × List Char)),
      as.Nodup → (∀ a ∈ as, acc.any (fun p => p.1 = a) = false) →
      as.foldl
        (fun acc a =>
          if acc.any (fun p => p.1 = a) then acc else acc ++ [(a, [])]) acc
        = acc ++ as.map (fun a => (a, [])) := by
  intro as
  induction as with
  | nil => intro acc _ _; simp
  | cons a as ih =>
    intro acc hnd hacc
    simp only [List.foldl_cons]
    have ha : acc.any (fun p => p.1 = a) = false :=
      hacc a (List.mem_cons_self a as)
    rw [ha]
    have hnd' := List.nodup_cons.mp hnd
    have hstep : ∀ b ∈ as, (acc ++ [(a, [])]).any (fun p => p.1 = b) = false := by
      intro b hb
      rw [List.any_append]
      have h1 : acc.any (fun p => p.1 = b) = false :=
        hacc b (List.mem_cons_of_mem a hb)
      have h2 : a ≠ b := fun hab => hnd'.1 (hab ▸ hb)
      simp [h1, h2]
    rw [if_neg (by simp [ha]), ih (acc ++ [(a, [])]) hnd'.2 hstep]
    simp

/-- C9: the batch operation of `MotoClient` is broken — `GetMultipleHNAPs`
is missing from `_KNOWN_ACTIONS`, so `_do_actions` always raises the
unknown-action `ValueError` before posting anything, for every list of
action names; the parallel `src/moto.py` `do_actions` (which has no
allow-list) does what the claim describes: it posts exactly one
`GetMultipleHNAPs` request whose parameter map has one empty-string-valued
entry per requested action name and returns the value under
`GetMultipleHNAPsResponse`. -/
theorem c9_batch_rejected_in_client :
    (∀ (net : List Char → List (List Char × List Char) → Option Json)
        (st : CookieJar) (actions : List (List Char)),
        doActions net st actions =
          (.error (.unknownAction GetMultipleHNAPs), st, []))
    ∧ GetMultipleHNAPs ∉ KNOWN_ACTIONS
    ∧ (∀ (net : List Char → List (List Char × List Char) → Option Json)
        (st : CookieJar) (actions : List (List Char)) (body : Json) (v : Json),
        net GetMultipleHNAPs (dictKeysEmptyStr actions) = some body →
        jlookup (GetMultipleHNAPs ++ "Response".data) body = some v →
        motoPyDoActions net st actions =
          (.ok v, st, [⟨GetMultipleHNAPs, dictKeysEmptyStr actions⟩]))
    ∧ (∀ actions : List (List Char), actions.Nodup →
        dictKeysEmptyStr actions = actions.map (fun a => (a, []))) := by
  refine ⟨?_, by decide, ?_, ?_⟩
  · intro net st actions
    unfold doActions doAction
    rw [if_neg (by decide : ¬ GetMultipleHNAPs ∈ KNOWN_ACTIONS)]
  · intro net st actions body v h1 h2
    simp only [motoPyDoActions, motoPyDoAction, h1, h2]
  · intro actions hnd
    have h := dictKeysEmptyStr_aux actions [] hnd (fun a _ => rfl)
    simpa [dictKeysEmptyStr] using h

/-- C9 witness: the moto.py batch path evaluated at a concrete oracle and
action list. -/
theorem c9_witness :
    motoPyDoActions netBatch ⟨none, none⟩ ["GetHomeConnection".data] =
      (.ok (Json.str "ok".data), ⟨none, none⟩,
       [⟨GetMultipleHNAPs, dictKeysEmptyStr ["GetHomeConnection".data]⟩])
    ∧ dictKeysEmptyStr ["GetHomeConnection".data] =
        [("GetHomeConnection".data, [])] :=
  ⟨c9_batch_rejected_in_client.2.2.1 netBatch ⟨none, none⟩
     ["GetHomeConnection".data] batchBody (Json.str "ok".data) rfl rfl,
   c9_batch_rejected_in_client.2.2.2 ["GetHomeConnection".data] (by decide)⟩

/-! ## Claim C10 -/

/-- C10: calling `_do_action` with an action name outside the allow-list
fails with the unknown-action error before any request is posted (the posted
request list is empty), and the session cookie jar — the uid and PrivateKey
values — is returned exactly as it was. -/
theorem c10_unknown_action_rejected :
    ∀ (net : List Char → List (List Char × List Char) → Option Json)
      (st : CookieJar) (action : List Char)
      (params : List (List Char × List Char)),
      action ∉ KNOWN_ACTIONS →
      doAction net st action params =
        (.error (.unknownAction action), st, []) := by
  intro net st action params h
  unfold doAction
  rw [if_neg h]

/-- C10 witness: the theorem applied to a concrete unknown action. -/
theorem c10_witness :
    doAction netNone ⟨none, none⟩ "Reboot".data [] =
      (.error (.unknownAction "Reboot".data), ⟨none, none⟩, []) :=
  c10_unknown_action_rejected netNone ⟨none, none⟩ "Reboot".data []
    (by decide)
